import Mathlib

/-!
Verification of the Float-Deck ("FloatAI") front-end data layer.

Shallow embedding of the derived-analytics and fetch-resilience code:
  * `DataVisualization` component (statistics, numeric extraction, filter pipeline),
  * the `App` component (welcome-load retry with backoff, cache fallback,
    data-synopsis signature),
  * the `floatAIAPI` fetch client (hardcoded fallbacks; the copy embedded here is
    the one bundled with the App component, whose `getArgoFloats` returns a
    `{data, source}` record and whose sample fleet has six entries — the copy the
    App's `floats.data` accesses require),
  * the `ChatInterface` component (stale-response cancellation, assistant-message
    normalization).

Modelling conventions: JavaScript numbers are idealized as exact rationals,
with NaN and the two infinities as explicit extra values; epoch-millisecond
integers stand in for `Date` objects and their ISO rendering; fallible network
calls are `Except Unit` outcomes passed to the otherwise-pure request handlers.
-/

namespace FloatDeck

/-- A JavaScript number: a finite value (idealized as an exact rational),
one of the two infinities, or NaN. `typeof v === "number"` holds for all four. -/
inductive JSNum where
  | fin (q : ℚ)
  | posInf
  | negInf
  | nan
deriving DecidableEq, Repr

/-- A JavaScript runtime value as it appears in loosely-typed result rows. -/
inductive JVal where
  | num (n : JSNum)
  | str (s : String)
  | boolV (b : Bool)
  | nullV
  | arrV (elems : List JVal)
  | objV (fields : List (String × JVal))

/-- A loosely-typed result row (`Record<string, any>`), keys in insertion order. -/
abbrev Row := List (String × JVal)

/-- Property access `row[key]`: the first binding wins; `none` models `undefined`. -/
def jget (row : Row) (key : String) : Option JVal :=
  (row.find? (fun kv => kv.fst == key)).map Prod.snd

/-- JavaScript truthiness of an optional string field:
`undefined`, `null`, and the empty string are falsy. -/
def truthyStr : Option String → Bool
  | none => false
  | some s => s != ""

/-- `s || d` for an optional string: the string when truthy, else the default. -/
def strOr (s : Option String) (d : String) : String :=
  if truthyStr s then s.getD "" else d

/-! ## Descriptive statistics engine (`DataVisualization`, part_000 lines 76-95) -/

/-- The record returned by `computeStats`. The source stores
`stddev = Math.sqrt(variance)`; since the square root of a rational is
irrational in general, the embedding carries the radicand in `variance`
and theorems speak about `Real.sqrt variance`. -/
structure Stats where
  mean : ℚ
  median : ℚ
  min : ℚ
  max : ℚ
  variance : ℚ
  count : ℕ
deriving DecidableEq, Repr

/-- `computeStats` from `DataVisualization`: null for empty input; otherwise
mean, median over a sorted copy (`[...values].sort((a, b) => a - b)` becomes a
stable ascending sort), min/max as the sorted extremes, population variance
(divide by N), and the count. -/
def computeStats (values : List ℚ) : Option Stats :=
  if values.isEmpty then none
  else
    let sorted := List.insertionSort (· ≤ ·) values
    let sum := values.foldl (· + ·) 0
    let mean := sum / (values.length : ℚ)
    let median :=
      if sorted.length % 2 = 0 then
        (sorted.getD (sorted.length / 2 - 1) 0 + sorted.getD (sorted.length / 2) 0) / 2
      else sorted.getD ((sorted.length - 1) / 2) 0
    let variance := (values.foldl (fun acc v => acc + (v - mean) ^ 2) 0) / (values.length : ℚ)
    some ⟨mean, median, sorted.headD 0, sorted.getLastD 0, variance, values.length⟩

/-- `extractNumericValues` from `DataVisualization`: map each row to its value
at `key` when `typeof row[key] === "number" && !Number.isNaN(row[key])`, else
null, then drop the nulls. Note the source tests NaN only, not finiteness. -/
def extractNumericValues (rows : List Row) (key : String) : List JSNum :=
  (rows.map (fun row =>
    match jget row key with
    | some (JVal.num n) => if n ≠ JSNum.nan then some n else none
    | _ => none)).reduceOption

/-- The column extraction as claim C8 words it ("exactly the finite numeric
values of that column in row order"): infinities are dropped as well. Stated
from the claim, for comparison against `extractNumericValues`. -/
def finiteNumericValues (rows : List Row) (key : String) : List ℚ :=
  rows.filterMap (fun row =>
    match jget row key with
    | some (JVal.num (JSNum.fin q)) => some q
    | _ => none)

/-! ## JavaScript string coercion (used by the filter and synopsis code) -/

/-- `String(n)` for a JavaScript number. Integral values render as in
JavaScript; the decimal rendering of non-integral doubles is idealized by the
rational literal, which no claim in this development depends on. -/
def jsStringOfNum : JSNum → String
  | .fin q => if q.den = 1 then toString q.num else toString q
  | .posInf => "Infinity"
  | .negInf => "-Infinity"
  | .nan => "NaN"

mutual

/-- `String(v)` for a JavaScript value. Arrays join their elements with a
comma (the `null`/`undefined`-element-renders-empty nuance is not modelled;
no claim exercises it) and plain objects render as `[object Object]`. -/
def jsStringOfVal : JVal → String
  | .num n => jsStringOfNum n
  | .str s => s
  | .boolV b => cond b "true" "false"
  | .nullV => "null"
  | .arrV elems => String.intercalate "," (jsStringOfList elems)
  | .objV _ => "[object Object]"

/-- Pointwise stringification of an array's elements. -/
def jsStringOfList : List JVal → List String
  | [] => []
  | v :: rest => jsStringOfVal v :: jsStringOfList rest

end

/-- `String(row[key])`, with a missing property rendering as `undefined`. -/
def jsStringAt (row : Row) (key : String) : String :=
  match jget row key with
  | none => "undefined"
  | some v => jsStringOfVal v

/-! ## Client-side filter pipeline (`DataVisualization`, part_000 lines 144-167) -/

inductive PersonaMode where
  | guided
  | expert
deriving DecidableEq, Repr

/-- The expert-mode filter state. `focusMetric` does not participate in
`filteredData`; it is carried for fidelity to the source record. -/
structure ExpertFilters where
  focusMetric : String := "temperature"
  floatId : Option String := none
  depthRange : Option (Option ℚ × Option ℚ) := none

/-- `depth < bound` for a non-NaN JavaScript number against a finite bound. -/
def jsNumLtQ : JSNum → ℚ → Bool
  | .fin x, q => decide (x < q)
  | .posInf, _ => false
  | .negInf, _ => true
  | .nan, _ => false

/-- `depth > bound` for a non-NaN JavaScript number against a finite bound. -/
def jsNumGtQ : JSNum → ℚ → Bool
  | .fin x, q => decide (q < x)
  | .posInf, _ => true
  | .negInf, _ => false
  | .nan, _ => false

/-- The row predicate of the depth-range branch of `filteredData`, reached only
when `depthRange` is present with a non-null first component `minDepth`:
rows without a non-NaN numeric `pressure` are rejected, then the inclusive
bounds are enforced (the upper bound only when non-null). -/
def depthRowPass (row : Row) (minDepth : ℚ) (maxDepth : Option ℚ) : Bool :=
  match jget row "pressure" with
  | some (JVal.num d) =>
    if d = JSNum.nan then false
    else if jsNumLtQ d minDepth then false
    else match maxDepth with
      | some m => !(jsNumGtQ d m)
      | none => true
  | _ => false

/-- The row predicate of the float-id branch of `filteredData`:
`String(row.float_id) === filters.floatId`. -/
def floatIdRowPass (row : Row) (fid : String) : Bool :=
  jsStringAt row "float_id" == fid

/-- `filteredData` from `DataVisualization`: outside expert mode the data is
passed through; in expert mode a copy is filtered by float id when
`filters.floatId` is truthy, and then by the depth range only when
`filters.depthRange` is present with a non-null first component. -/
def filteredData (mode : PersonaMode) (filters : ExpertFilters) (data : List Row) : List Row :=
  if mode ≠ PersonaMode.expert then data
  else
    let next₁ :=
      if truthyStr filters.floatId then
        data.filter (fun row => floatIdRowPass row (filters.floatId.getD ""))
      else data
    match filters.depthRange with
    | some (some minDepth, maxDepth) =>
        next₁.filter (fun row => depthRowPass row minDepth maxDepth)
    | _ => next₁

/-- The filter pipeline as claim C6 words it: the inclusive numeric range
filter on the depth column applies whenever a range is present, with *either*
bound independently open (null). Stated from the claim, for comparison
against `filteredData`. -/
def claimFilteredData (mode : PersonaMode) (filters : ExpertFilters) (data : List Row) : List Row :=
  if mode ≠ PersonaMode.expert then data
  else
    let next₁ :=
      if truthyStr filters.floatId then
        data.filter (fun row => floatIdRowPass row (filters.floatId.getD ""))
      else data
    match filters.depthRange with
    | some (minDepth, maxDepth) =>
        next₁.filter (fun row =>
          match jget row "pressure" with
          | some (JVal.num d) =>
            if d = JSNum.nan then false
            else
              (match minDepth with
               | some lo => !(jsNumLtQ d lo)
               | none => true) &&
              (match maxDepth with
               | some hi => !(jsNumGtQ d hi)
               | none => true)
          | _ => false)
    | none => next₁

/-- The single conjunctive pass the two expert-mode filters amount to:
a row survives iff it passes the float-id test (when that filter is active)
and the depth-range test (when that filter is active). -/
def expertRowPass (filters : ExpertFilters) (row : Row) : Bool :=
  (if truthyStr filters.floatId then floatIdRowPass row (filters.floatId.getD "") else true) &&
  (match filters.depthRange with
   | some (some minDepth, maxDepth) => depthRowPass row minDepth maxDepth
   | _ => true)

/-! ## Data-synopsis signature (`createDataSynopsis`, part_002 lines 506-600) -/

/-- `a ?? b`: fall through on `undefined` (missing) and on `null`. -/
def nullish (a b : Option JVal) : Option JVal :=
  match a with
  | none => b
  | some JVal.nullV => b
  | some v => some v

/-- One row's contribution to the distinct-float-id scan of
`createDataSynopsis`: `row.float_id ?? row.float ?? row.id`, coerced to a
trimmed string for string values (empty after trimming becomes null) and to
`String(raw)` otherwise. The `try`/`catch` around `String(raw)` is modelled as
never throwing. -/
def synopsisFloatId (row : Row) : Option String :=
  match nullish (nullish (jget row "float_id") (jget row "float")) (jget row "id") with
  | none => none
  | some JVal.nullV => none
  | some (JVal.str s) => if s.trim = "" then none else some s.trim
  | some v => some (jsStringOfVal v)

/-- First-seen deduplication against an accumulator of already-kept values. -/
def dedupFirstSeen (seen : List String) : List String → List String
  | [] => []
  | s :: rest =>
    if s ∈ seen then dedupFirstSeen seen rest
    else s :: dedupFirstSeen (s :: seen) rest

/-- `Array.from(new Set(l))`: deduplication keeping the first occurrence. -/
def setDedup (l : List String) : List String :=
  dedupFirstSeen [] l

/-- The distinct float-id list of `createDataSynopsis`:
map rows through the id scan, drop nulls and empty strings
(`.filter(Boolean)`), then deduplicate preserving first-seen order. -/
def synopsisFloatIds (data : List Row) : List String :=
  setDedup (((data.map synopsisFloatId).reduceOption).filter (fun s => s != ""))

/-- The `signature` field of the synopsis returned by `createDataSynopsis`:
null for an empty result set, else
`` `${data.length}-${columns.join("|")}-${floatIds.length}` `` where `columns`
is the key list of the first row. The display-only synopsis fields (headline,
highlights, date window, sample float) are not modelled; no claim mentions
them. -/
def synopsisSignature (data : List Row) : Option String :=
  if data.isEmpty then none
  else
    let columns := (data.headD []).map Prod.fst
    some (toString data.length ++ "-" ++ String.intercalate "|" columns ++ "-"
      ++ toString (synopsisFloatIds data).length)

/-! ## Resilient fetch client (`floatAIAPI`, part_002 lines 1336-1647)

The embedded copy is the one bundled with the App component (part_002), whose
`getArgoFloats` wraps its result in `{data, source}` and whose sample fleet
has six entries; the App's `floats.data` accesses type-check only against this
copy. The older copy at `frontend/src/services/api.ts` differs in exactly
those two points (a bare array and a three-entry fleet).

Each method receives the outcome of its single network round trip
(`fetchJson`/`fetch`) as an `Except Unit` value: `.error` covers a network
error, a non-2xx status, and a JSON parse failure alike, all of which surface
to the method as one thrown exception caught by its `catch` block. -/

structure ArgoFloat where
  id : String
  lat : ℚ
  lon : ℚ
  last_contact : String
  temperature : Option ℚ := none
  salinity : Option ℚ := none
  trajectory : Option (List (ℚ × ℚ)) := none
  status : String
deriving DecidableEq, Repr

structure ArgoProfile where
  depth : List ℚ
  values : List ℚ
  quality_flags : List (ℚ ⊕ String)
  metadata : List (String × String) := []
deriving DecidableEq, Repr

/-- A time-series point; the timestamp is the epoch-millisecond value whose
ISO rendering the source stores. -/
structure TimeSeriesPoint where
  timestampMs : ℤ
  temperature : Option ℚ := none
  salinity : Option ℚ := none
  oxygen : Option ℚ := none
  pressure : Option ℚ := none

structure TimeSeriesResponse where
  data : List TimeSeriesPoint
  sqlQuery : Option String := none

structure DataQualityReport where
  metric : String
  value : ℚ
  unit : Option String := none
  flag : Option String := none
  description : Option String := none
deriving DecidableEq, Repr

/-- A trajectory point; the timestamp is the epoch-millisecond value whose
ISO rendering the source stores. -/
structure TrajectoryPoint where
  lat : ℚ
  lon : ℚ
  timestampMs : ℤ
  temperature : Option ℚ := none
  salinity : Option ℚ := none
  pressure : Option ℚ := none
deriving DecidableEq, Repr

structure DatabaseStats where
  total_floats : ℚ
  last_updated : Option String := none
  dataset : Option String := none
deriving DecidableEq, Repr

inductive DataSource where
  | live
  | sample
deriving DecidableEq, Repr

structure ArgoFloatsResult where
  data : List ArgoFloat
  source : DataSource
deriving DecidableEq, Repr

/-- Catalog/date-window filters; they only shape the request URL
(`serializeFilters`) and never influence a fallback value. -/
structure DataFilters where
  floatIds : Option (List String) := none
  status : Option (List String) := none
  parameter : Option String := none
  dateRangeStart : Option String := none
  dateRangeEnd : Option String := none

/-- The hardcoded six-float sample fleet (part_002 lines 1449-1456). -/
def SAMPLE_FLOATS : List ArgoFloat :=
  [ { id := "5905612", lat := -33.500, lon := 151.300,
      last_contact := "2025-11-20T12:00:00Z", temperature := some 15.4,
      salinity := some 35.1,
      trajectory := some [(-33.50, 151.30), (-33.45, 151.32), (-33.40, 151.35)],
      status := "active" },
    { id := "5905613", lat := -12.100, lon := 145.200,
      last_contact := "2025-11-15T09:00:00Z", temperature := some 12.9,
      salinity := some 34.7,
      trajectory := some [(-12.10, 145.20), (-12.06, 145.28), (-12.00, 145.35)],
      status := "active" },
    { id := "5905614", lat := 2.500, lon := -150.800,
      last_contact := "2025-10-05T18:00:00Z", temperature := some 10.2,
      salinity := some 34.9,
      trajectory := some [(2.50, -150.80), (2.55, -150.70), (2.60, -150.60)],
      status := "delayed" },
    { id := "3901774", lat := 46.500, lon := -17.800,
      last_contact := "2025-11-10T04:00:00Z", temperature := some 9.1,
      salinity := some 35.4,
      trajectory := some [(46.45, -17.90), (46.50, -17.80), (46.60, -17.65)],
      status := "active" },
    { id := "2902273", lat := 14.200, lon := -38.600,
      last_contact := "2025-11-18T07:00:00Z", temperature := some 20.3,
      salinity := some 36.1,
      trajectory := some [(14.10, -38.70), (14.20, -38.60), (14.25, -38.55)],
      status := "active" },
    { id := "3901621", lat := -47.800, lon := 12.400,
      last_contact := "2025-09-29T10:00:00Z", temperature := some 6.4,
      salinity := some 34.6,
      trajectory := some [(-47.90, 12.30), (-47.82, 12.38), (-47.75, 12.50)],
      status := "inactive" } ]

/-- The hardcoded sample profile (the `units` string carries the source's
mojibake verbatim). -/
def SAMPLE_PROFILE : ArgoProfile :=
  { depth := [0, 200, 500, 1000],
    values := [20.2, 15.1, 8.3, 4.2],
    quality_flags := [Sum.inl 1, Sum.inl 1, Sum.inl 1, Sum.inl 2],
    metadata := [("variable", "temperature"), ("units", "Â°C")] }

/-- Epoch milliseconds of `2024-01-01T00:00:00Z`, the sample series' base date. -/
def sampleSeriesBaseMs : ℤ := 1704067200000

/-- The sample time series. `Math.sin` is a fixed pure function of the JS math
library, passed in as `sinFn` because its transcendental values have no exact
rational embedding; the series is a constant once the library is fixed. -/
def SAMPLE_TIME_SERIES (sinFn : ℚ → ℚ) : TimeSeriesResponse :=
  { data := (List.range 12).map (fun (index : ℕ) =>
      { timestampMs := sampleSeriesBaseMs + (index : ℤ) * 7 * 86400000,
        temperature := some (18 - (index : ℚ) * 0.3),
        salinity := some (35 + sinFn ((index : ℚ) / 2) * 0.2),
        pressure := some (1013 + (index : ℚ) * 2) }),
    sqlQuery := some "SELECT * FROM argo_profiles WHERE float_id = 'float_2903953' ORDER BY profile_date DESC LIMIT 12;" }

/-- The hardcoded sample quality report. -/
def SAMPLE_QUALITY : List DataQualityReport :=
  [ { metric := "temperature_qc", value := 1, unit := some "qc", flag := some "A",
      description := some "All temperature readings passed Argo delayed-mode quality checks." },
    { metric := "salinity_qc", value := 1, unit := some "qc", flag := some "A",
      description := some "Salinity aligns with climatology within acceptable tolerances." },
    { metric := "profile_completeness", value := 0.94, unit := some "ratio",
      description := some "94% of expected depth levels reported for the latest cycle." } ]

/-- `floatAIAPI.getDatabaseStats`: the catch branch falls back to a stats
record derived from the sample fleet. -/
def getDatabaseStats (outcome : Except Unit DatabaseStats) : DatabaseStats :=
  match outcome with
  | .ok v => v
  | .error _ =>
    { total_floats := (SAMPLE_FLOATS.length : ℚ), last_updated := none,
      dataset := some "Sample dataset" }

/-- `floatAIAPI.getArgoFloats`: the catch branch falls back to the sample
fleet tagged as sample-sourced. The filters only shape the request URL. -/
def getArgoFloats (_filters : Option DataFilters)
    (outcome : Except Unit (List ArgoFloat)) : ArgoFloatsResult :=
  match outcome with
  | .ok data => { data := data, source := DataSource.live }
  | .error _ => { data := SAMPLE_FLOATS, source := DataSource.sample }

/-- `floatAIAPI.getFloatProfile`: the catch branch falls back to the sample
profile, whatever float and variable were requested. -/
def getFloatProfile (_floatId _variable : String)
    (outcome : Except Unit ArgoProfile) : ArgoProfile :=
  match outcome with
  | .ok v => v
  | .error _ => SAMPLE_PROFILE

/-- `floatAIAPI.getTimeSeriesData`: the catch branch falls back to the sample
time series. -/
def getTimeSeriesData (sinFn : ℚ → ℚ) (_floatId _variable : String)
    (outcome : Except Unit TimeSeriesResponse) : TimeSeriesResponse :=
  match outcome with
  | .ok v => v
  | .error _ => SAMPLE_TIME_SERIES sinFn

/-- `floatAIAPI.getDataQuality`: the catch branch falls back to the sample
quality report. -/
def getDataQuality (_floatId : String)
    (outcome : Except Unit (List DataQualityReport)) : List DataQualityReport :=
  match outcome with
  | .ok v => v
  | .error _ => SAMPLE_QUALITY

/-- `floatAIAPI.getFloatTrajectory`: the catch branch synthesizes
`Math.min(limit, 10)` points whose timestamps count back day by day from
`Date.now()` (passed in as `nowMs`). -/
def getFloatTrajectory (_floatId : String) (limit : ℕ) (nowMs : ℤ)
    (outcome : Except Unit (List TrajectoryPoint)) : List TrajectoryPoint :=
  match outcome with
  | .ok v => v
  | .error _ =>
    (List.range (Nat.min limit 10)).map (fun (index : ℕ) =>
      { lat := 40.7 + (index : ℚ) * 0.02,
        lon := -74 + (index : ℚ) * 0.015,
        timestampMs := nowMs - ((limit : ℤ) - (index : ℤ)) * 86400000,
        temperature := some (18.5 - (index : ℚ) * 0.1),
        salinity := some (35.2 - (index : ℚ) * 0.02),
        pressure := some (1000 + (index : ℚ) * 5) })

/-! ## Chat/AI response payloads (`api.ts` contract, shared by App and chat) -/

/-- One role-tagged backend message
(`{role, content, type?, title?, metadata?}`). -/
structure BackendAssistantMessage where
  role : String
  content : JVal
  type : Option String := none
  title : Option String := none
  metadata : Option JVal := none

/-- `result_data: Record<string, any>[] | string | null`. -/
inductive ResultData where
  | rows (l : List Row)
  | strD (s : String)
  | nullD

/-- The `/api/ask` response payload. -/
structure AIResponse where
  sql_query : Option String := none
  result_data : ResultData := ResultData.nullD
  messages : Option (List BackendAssistantMessage) := none
  metadata : Option JVal := none
  error : Option String := none

/-! ## Welcome-load retry and cache fallback (`App`, part_002 lines 645-724) -/

/-- The `{data, sqlQuery}` pair the App stores and caches. -/
structure AppData where
  data : List Row
  sqlQuery : String

inductive BackendStatus where
  | operational
  | degraded
  | offline
deriving DecidableEq, Repr

/-- The acceptance test of one welcome attempt:
`response && !response.error && Array.isArray(response.result_data) && response.sql_query`,
with JavaScript truthiness on the two string fields. -/
def isValidWelcomeResponse (r : AIResponse) : Bool :=
  !(truthyStr r.error)
    && (match r.result_data with | ResultData.rows _ => true | _ => false)
    && truthyStr r.sql_query

/-- The payload one attempt contributes: `none` when the `askAI` round trip
threw or the response fails the acceptance test, else the
`{data: result_data, sqlQuery: sql_query}` pair the loop commits. -/
def welcomePayload (outcome : Except Unit AIResponse) : Option AppData :=
  match outcome with
  | .error _ => none
  | .ok r =>
    if isValidWelcomeResponse r then
      some { data := (match r.result_data with | ResultData.rows l => l | _ => []),
             sqlQuery := r.sql_query.getD "" }
    else none

/-- The observable trace of the welcome retry loop: how many attempts ran,
the backoff delays slept between consecutive attempts (in order, in
milliseconds), and the committed payload if any attempt succeeded. -/
structure WelcomeTrace where
  attempts : ℕ
  delays : List ℕ
  payload : Option AppData

/-- The retry loop of `fetchInitialData`
(`for (let attempt = 0; attempt < maxAttempts; attempt += 1)`), indexed by the
current 0-based attempt number and the number of attempts still allowed:
a valid attempt breaks immediately; a failed attempt sleeps
`400 * (attempt + 1) * (attempt + 1)` ms unless it was the last one. The
`attempt`-th value of `oracle` is the outcome of the `attempt`-th `askAI`
call. -/
def welcomeAttempts (oracle : ℕ → Except Unit AIResponse) :
    ℕ → ℕ → WelcomeTrace
  | _, 0 => ⟨0, [], none⟩
  | attempt, remaining + 1 =>
    match welcomePayload (oracle attempt) with
    | some payload => ⟨1, [], some payload⟩
    | none =>
      if remaining = 0 then ⟨1, [], none⟩
      else
        let rest := welcomeAttempts oracle (attempt + 1) remaining
        ⟨rest.attempts + 1,
         400 * (attempt + 1) * (attempt + 1) :: rest.delays,
         rest.payload⟩

/-- What `localStorage` holds under the welcome-cache key, after JSON parsing:
`wellFormed` when the parsed value passes
`Array.isArray(parsed.data) && typeof parsed.sqlQuery === "string"`, and
`malformed` for every other stored value (including unparsable JSON, whose
parse exception the source catches and converts to null). -/
inductive CacheBlob where
  | wellFormed (data : List Row) (sqlQuery : String)
  | malformed

/-- `loadCachedWelcomeData`: null when the key is absent or the stored value
fails the shape check, else the revived `{data, sqlQuery}` pair. -/
def loadCachedWelcomeData : Option CacheBlob → Option AppData
  | none => none
  | some CacheBlob.malformed => none
  | some (CacheBlob.wellFormed d s) => some ⟨d, s⟩

/-- The state `fetchInitialData` leaves behind: the committed app data, the
synopsis signature (the modelled part of the synopsis), the backend-status
pill, and the payload passed to `persistWelcomeData` if any. -/
structure WelcomeResult where
  appData : AppData
  synopsisSig : Option String
  status : BackendStatus
  statusDetail : String
  persisted : Option AppData

/-- `fetchInitialData` (after the loop): a successful attempt commits its
payload, persists it, and reports operational; otherwise the cached snapshot
is served as degraded; and only when that is also absent does the App present
the empty offline state. -/
def fetchInitialData (oracle : ℕ → Except Unit AIResponse)
    (cache : Option CacheBlob) : WelcomeResult :=
  let t := welcomeAttempts oracle 0 3
  match t.payload with
  | some payload =>
    { appData := payload, synopsisSig := synopsisSignature payload.data,
      status := BackendStatus.operational, statusDetail := "Live telemetry synced.",
      persisted := some payload }
  | none =>
    match loadCachedWelcomeData cache with
    | some cached =>
      { appData := cached, synopsisSig := synopsisSignature cached.data,
        status := BackendStatus.degraded,
        statusDetail := "Loaded cached telemetry while the backend recovers.",
        persisted := none }
    | none =>
      { appData := ⟨[], ""⟩, synopsisSig := none,
        status := BackendStatus.offline,
        statusDetail := "Initial telemetry failed. Backend unreachable.",
        persisted := none }

/-! ## Conversational interface (`ChatInterface.tsx`) -/

/-- A display message of the chat transcript. -/
structure ChatMessage where
  id : String
  content : String
  sender : String
  timestampMs : ℕ
  type : Option String := none
  title : Option String := none
  metadata : Option (List (String × JVal)) := none

/-- `extractMessageContent`: a string passes through; an object with a string
`text` property yields that text; everything else yields the empty string. -/
def extractMessageContent : JVal → String
  | JVal.str s => s
  | JVal.objV fields =>
    match jget fields "text" with
    | some (JVal.str t) => t
    | _ => ""
  | _ => ""

/-- A metadata field is kept only when it is a non-null, non-array object. -/
def objFields : Option JVal → List (String × JVal)
  | some (JVal.objV fields) => fields
  | _ => []

/-- JavaScript object spread `{...base, ...entry}`: base keys in order with
entry overrides, then entry's new keys. -/
def spreadMerge (base entry : List (String × JVal)) : List (String × JVal) :=
  base.map (fun kv => (kv.fst, ((jget entry kv.fst).getD kv.snd)))
    ++ entry.filter (fun kv => (jget base kv.fst).isNone)

/-- `normalizeAssistantMessages`: with a non-empty `messages` array, keep the
`role === 'assistant'` entries and map them to display messages (blank
extracted content falls back to `fallbackText`); with no structured messages,
synthesize exactly one message from, in priority order, the fallback text,
a non-blank string `result_data`, the error text, and a generic apology.
`timestampSeed` is the `Date.now()` value captured on entry. -/
def normalizeAssistantMessages (payload : AIResponse) (fallbackText : String)
    (timestampSeed : ℕ) : List ChatMessage :=
  let baseMetadata := objFields payload.metadata
  let rawMessages := payload.messages.getD []
  if rawMessages.length > 0 then
    (rawMessages.filter (fun entry => entry.role == "assistant")).enum.map
      (fun ie =>
        let derivedContentRaw := extractMessageContent ie.snd.content
        { id := "assistant-" ++ toString timestampSeed ++ "-" ++ toString ie.fst,
          sender := "assistant",
          content := if derivedContentRaw.trim != "" then derivedContentRaw.trim
                     else fallbackText,
          title := ie.snd.title,
          type := ie.snd.type,
          metadata := some (spreadMerge baseMetadata (objFields ie.snd.metadata)),
          timestampMs := timestampSeed + ie.fst })
  else
    let fallbackContent :=
      if fallbackText.trim != "" then fallbackText.trim
      else match payload.result_data with
        | ResultData.strD s => if s.trim != "" then s.trim else fallbackDefault payload
        | _ => fallbackDefault payload
    [ { id := "assistant-" ++ toString timestampSeed,
        sender := "assistant",
        content := fallbackContent,
        type := some (if truthyStr payload.error then "error" else "text"),
        metadata := some baseMetadata,
        timestampMs := timestampSeed } ]
where
  /-- The tail of the priority chain: the error text, then the generic line. -/
  fallbackDefault (payload : AIResponse) : String :=
    if truthyStr payload.error then
      "An error occurred: " ++ payload.error.getD ""
    else "I\x27m still processing that—please try again."

/-- The chat component state touched by `sendPrompt` and
`handleResetConversation`. `sessionId` is the monotonically incremented
counter held in `sessionIdRef`. -/
structure ChatState where
  sessionId : ℕ
  messages : List ChatMessage
  isLoading : Bool
  input : String

/-- The calls a resolving request makes into the surrounding dashboard. -/
inductive ChatEffect where
  | dataReceived (data : List Row) (sql : String)
  | statusChange (status : BackendStatus) (detail : String)

/-- `buildWelcomeMessage` with the current `Date.now()` value. -/
def buildWelcomeMessage (nowMs : ℕ) : ChatMessage :=
  { id := "welcome-" ++ toString nowMs,
    content := "Welcome to FloatAI — your ARGO mission copilot.\nAsk a question to surface floats, profiles, or trends when you\x27re ready.",
    sender := "assistant",
    timestampMs := nowMs }

/-- The continuation of `sendPrompt` after `await askAI` resolves (lines
388-456): a captured `sessionId` differing from the current one returns
before any mutation, and the `finally` guard then also skips
`setIsLoading(false)`; otherwise the response is classified, the dashboard
callbacks fire, and the normalized assistant messages are appended.
`outcome.error` is the (in practice unreachable) rejection branch, which the
surrounding `catch` also guards by session. `nowMs` is the `Date.now()`
value at resolution time. -/
def resolveAskAI (captured : ℕ) (outcome : Except Unit AIResponse) (nowMs : ℕ)
    (st : ChatState) : ChatState × List ChatEffect :=
  match outcome with
  | .ok response =>
    if st.sessionId ≠ captured then (st, [])
    else
      let branch : String × List ChatEffect :=
        if truthyStr response.error then
          ("An error occurred: " ++ response.error.getD "",
           [ChatEffect.dataReceived [] (strOr response.sql_query "Error executing query."),
            ChatEffect.statusChange BackendStatus.degraded (response.error.getD "")])
        else match response.result_data with
          | ResultData.rows data =>
            if data.length > 0 then
              ("I pulled " ++ toString data.length
                 ++ " records and synced them with the main viewscreen.",
               [ChatEffect.dataReceived data (strOr response.sql_query ""),
                ChatEffect.statusChange BackendStatus.operational
                  ("Synced " ++ toString data.length ++ " records.")])
            else
              ("The query ran successfully but returned no rows. Adjust your parameters and try again.",
               [ChatEffect.dataReceived [] (strOr response.sql_query ""),
                ChatEffect.statusChange BackendStatus.degraded "Query returned no rows."])
          | ResultData.strD s =>
            if s.trim != "" then
              (s.trim,
               [ChatEffect.statusChange BackendStatus.operational
                  "Assistant responded with narrative guidance."])
            else
              ("I\x27m not sure how to answer that.",
               [ChatEffect.statusChange BackendStatus.degraded
                  "Assistant could not determine an answer."])
          | ResultData.nullD =>
            ("I\x27m not sure how to answer that.",
             [ChatEffect.statusChange BackendStatus.degraded
                "Assistant could not determine an answer."])
      let assistantMessages := normalizeAssistantMessages response branch.fst nowMs
      ({ st with messages := st.messages ++ assistantMessages, isLoading := false },
       branch.snd)
  | .error _ =>
    if st.sessionId ≠ captured then (st, [])
    else
      ({ st with
          messages := st.messages ++
            [ { id := toString nowMs ++ "-error",
                content := "Failed to connect to the AI server. Please make sure it is running.",
                sender := "assistant", timestampMs := nowMs,
                type := some "error" } ],
          isLoading := false },
       [ChatEffect.statusChange BackendStatus.offline "Unable to reach the backend."])

/-- `handleResetConversation`: increments the session counter, replaces the
transcript with a fresh welcome message, clears the composer and the loading
flag, and notifies the dashboard. -/
def handleResetConversation (st : ChatState) (nowMs : ℕ) :
    ChatState × List ChatEffect :=
  ({ sessionId := st.sessionId + 1,
     messages := [buildWelcomeMessage nowMs],
     isLoading := false,
     input := "" },
   [ChatEffect.dataReceived [] "",
    ChatEffect.statusChange BackendStatus.operational "Chat console reset."])

/-! ## Helper lemmas -/

theorem foldl_add_eq_sum (l : List ℚ) (init : ℚ) :
    l.foldl (· + ·) init = init + l.sum := by
  induction l generalizing init with
  | nil => simp
  | cons a t ih => simp [List.foldl_cons, ih, List.sum_cons]; ring

theorem foldl_sqdev_eq_sum (m : ℚ) (l : List ℚ) (init : ℚ) :
    l.foldl (fun acc v => acc + (v - m) ^ 2) init
      = init + (l.map (fun v => (v - m) ^ 2)).sum := by
  induction l generalizing init with
  | nil => simp
  | cons a t ih => simp [List.foldl_cons, ih]; ring

theorem headD_mem_of_ne_nil {α : Type} {l : List α} (h : l ≠ []) (d : α) :
    l.headD d ∈ l := by
  cases l with
  | nil => exact absurd rfl h
  | cons a t => simp

theorem getLastD_mem_of_ne_nil {α : Type} {l : List α} (h : l ≠ []) (d : α) :
    l.getLastD d ∈ l := by
  induction l generalizing d with
  | nil => exact absurd rfl h
  | cons a t ih =>
    rw [List.getLastD_cons]
    cases t with
    | nil => simp
    | cons b u => exact List.mem_cons_of_mem a (ih (by simp) a)

theorem sorted_headD_le {l : List ℚ} (hs : l.Sorted (· ≤ ·)) {x : ℚ}
    (hx : x ∈ l) (d : ℚ) : l.headD d ≤ x := by
  cases l with
  | nil => cases hx
  | cons a t =>
    rcases List.mem_cons.mp hx with rfl | hxt
    · simp
    · exact (List.sorted_cons.mp hs).1 x hxt

theorem sorted_le_getLastD {l : List ℚ} (hs : l.Sorted (· ≤ ·)) {x : ℚ}
    (hx : x ∈ l) (d : ℚ) : x ≤ l.getLastD d := by
  induction l generalizing d with
  | nil => cases hx
  | cons a t ih =>
    rw [List.getLastD_cons]
    have hs' := List.sorted_cons.mp hs
    rcases List.mem_cons.mp hx with rfl | hxt
    · cases t with
      | nil => simp
      | cons b u =>
        have hmem := getLastD_mem_of_ne_nil (l := b :: u) (by simp) x
        exact hs'.1 _ hmem
    · exact ih hs'.2 hxt a

/-- Claim C5: `computeStats` returns null on empty input; the singleton and
four-element vectors evaluate exactly as the spec's test expectations state
(the source's `stddev` being the square root of the `variance` carried here,
so `stddev ≈ 1.118` for `[1,2,3,4]` and `0` for `[5]`); and in general the
count is the input length, the mean and the population variance satisfy the
divide-by-N identities, the min/max are attained bounds of the input, and
null happens exactly on empty input. -/
theorem computeStats_spec :
    computeStats ([] : List ℚ) = none ∧
    computeStats [5] = some ⟨5, 5, 5, 5, 0, 1⟩ ∧
    computeStats [1, 2, 3, 4] = some ⟨5/2, 5/2, 1, 4, 5/4, 4⟩ ∧
    ((1.118 : ℝ) < Real.sqrt ((5 : ℚ)/4) ∧ Real.sqrt ((5 : ℚ)/4) < 1.119 ∧
      Real.sqrt ((0 : ℚ)) = 0) ∧
    (∀ (values : List ℚ) (s : Stats), computeStats values = some s →
      s.count = values.length ∧
      s.mean * (values.length : ℚ) = values.sum ∧
      s.variance * (values.length : ℚ) = (values.map (fun v => (v - s.mean) ^ 2)).sum ∧
      s.min ∈ values ∧ (∀ x ∈ values, s.min ≤ x) ∧
      s.max ∈ values ∧ (∀ x ∈ values, x ≤ s.max)) ∧
    (∀ values : List ℚ, computeStats values = none ↔ values = []) := by
  refine ⟨rfl, by norm_num [computeStats, List.insertionSort, List.orderedInsert],
    by norm_num [computeStats, List.insertionSort, List.orderedInsert], ⟨?_, ?_, by simp⟩, ?_, ?_⟩
  · rw [show ((5 : ℚ)/4 : ℝ) = 5/4 by norm_num]
    rw [show (1.118 : ℝ) = Real.sqrt (1.118 ^ 2) by
      rw [Real.sqrt_sq (by norm_num)]]
    exact Real.sqrt_lt_sqrt (by positivity) (by norm_num)
  · rw [show ((5 : ℚ)/4 : ℝ) = 5/4 by norm_num]
    rw [show (1.119 : ℝ) = Real.sqrt (1.119 ^ 2) by
      rw [Real.sqrt_sq (by norm_num)]]
    exact Real.sqrt_lt_sqrt (by positivity) (by norm_num)
  · intro values s h
    by_cases hv : values.isEmpty
    · simp [computeStats, hv] at h
    · have hne : values ≠ [] := by
        cases values with
        | nil => simp at hv
        | cons a t => simp
      have hlen : (values.length : ℚ) ≠ 0 :=
        Nat.cast_ne_zero.mpr (fun h0 => hne (List.length_eq_zero.mp h0))
      simp only [computeStats, hv, Bool.false_eq_true, if_false, Option.some.injEq] at h
      subst h
      have hperm := List.perm_insertionSort (· ≤ ·) values
      have hsorted := List.sorted_insertionSort (· ≤ ·) values
      have hsne : List.insertionSort (· ≤ ·) values ≠ [] := by
        intro hcon
        rw [hcon] at hperm
        exact hne (List.Perm.nil_eq hperm).symm
      refine ⟨rfl, ?_, ?_, ?_, ?_, ?_, ?_⟩
      · show values.foldl (· + ·) 0 / (values.length : ℚ) * (values.length : ℚ) = values.sum
        rw [div_mul_cancel₀ _ hlen, foldl_add_eq_sum, zero_add]
      · show values.foldl _ 0 / (values.length : ℚ) * (values.length : ℚ) = _
        rw [div_mul_cancel₀ _ hlen, foldl_sqdev_eq_sum, zero_add]
      · exact hperm.mem_iff.mp (headD_mem_of_ne_nil hsne 0)
      · intro x hx
        exact sorted_headD_le hsorted (hperm.mem_iff.mpr hx) 0
      · exact hperm.mem_iff.mp (getLastD_mem_of_ne_nil hsne 0)
      · intro x hx
        exact sorted_le_getLastD hsorted (hperm.mem_iff.mpr hx) 0
  · intro values
    constructor
    · intro h
      by_cases hv : values.isEmpty
      · exact List.isEmpty_iff.mp hv
      · simp [computeStats, hv] at h
    · intro h
      subst h
      rfl

/-- Witness for `computeStats_spec`: the general conjuncts evaluated on the
concrete vector `[1, 2, 3, 4]`. -/
theorem computeStats_spec_witness :
    (⟨5/2, 5/2, 1, 4, 5/4, 4⟩ : Stats).count = ([1, 2, 3, 4] : List ℚ).length ∧
    (computeStats ([] : List ℚ) = none ↔ ([] : List ℚ) = []) := by
  constructor
  · exact (computeStats_spec.2.2.2.2.1 [1, 2, 3, 4] ⟨5/2, 5/2, 1, 4, 5/4, 4⟩
      computeStats_spec.2.2.1).1
  · exact computeStats_spec.2.2.2.2.2 []

theorem extractNumericValues_eq_filterMap (rows : List Row) (key : String) :
    extractNumericValues rows key = rows.filterMap (fun row =>
      match jget row key with
      | some (JVal.num n) => if n ≠ JSNum.nan then some n else none
      | _ => none) := by
  unfold extractNumericValues List.reduceOption
  rw [List.filterMap_map]
  rfl

/-- Claim C8, counterexample: a column holding `Infinity` is a number and not
NaN, so `extractNumericValues` keeps it, while the claimed "exactly the finite
numeric values" reading drops it. -/
theorem extractNumericValues_keeps_infinity :
    extractNumericValues [[("pressure", JVal.num JSNum.posInf)]] "pressure"
      = [JSNum.posInf] ∧
    finiteNumericValues [[("pressure", JVal.num JSNum.posInf)]] "pressure" = [] ∧
    extractNumericValues [[("pressure", JVal.num JSNum.posInf)]] "pressure"
      ≠ (finiteNumericValues [[("pressure", JVal.num JSNum.posInf)]] "pressure").map
          JSNum.fin := by
  refine ⟨rfl, rfl, ?_⟩
  intro h
  have h' : ([JSNum.posInf] : List JSNum) = [] := by
    calc ([JSNum.posInf] : List JSNum)
        = extractNumericValues [[("pressure", JVal.num JSNum.posInf)]] "pressure" := rfl
      _ = (finiteNumericValues [[("pressure", JVal.num JSNum.posInf)]] "pressure").map
            JSNum.fin := h
      _ = [] := rfl
  exact List.cons_ne_nil _ _ h'

/-- Claim C8 as amended: `extractNumericValues` returns exactly the
number-typed non-NaN values of the column in row order — which are exactly the
finite numeric values whenever the column holds no infinite value (the only
case the code's NaN-only test diverges from the claim's "finite" wording;
rows parsed from JSON can never hold an infinity). Non-numeric, NaN, and
missing entries are silently dropped, never errors. -/
theorem extractNumericValues_amended :
    (∀ (rows : List Row) (key : String),
      (∀ row ∈ rows, ∀ n : JSNum, jget row key = some (JVal.num n) →
        n ≠ JSNum.posInf ∧ n ≠ JSNum.negInf) →
      extractNumericValues rows key = (finiteNumericValues rows key).map JSNum.fin) ∧
    (∀ (rows : List Row) (key : String) (row : Row),
      extractNumericValues (row :: rows) key =
        (match jget row key with
         | some (JVal.num n) => if n ≠ JSNum.nan then [n] else []
         | _ => []) ++ extractNumericValues rows key) := by
  constructor
  · intro rows key h
    rw [extractNumericValues_eq_filterMap]
    unfold finiteNumericValues
    rw [List.map_filterMap]
    refine List.filterMap_congr ?_
    intro row hrow
    have hr := h row hrow
    rcases hv : jget row key with _ | v
    · simp [hv]
    · cases v with
      | num n =>
        cases n with
        | fin q => simp [hv]
        | posInf => exact absurd rfl ((hr JSNum.posInf hv).1)
        | negInf => exact absurd rfl ((hr JSNum.negInf hv).2)
        | nan => simp [hv]
      | str s => simp [hv]
      | boolV b => simp [hv]
      | nullV => simp [hv]
      | arrV l => simp [hv]
      | objV l => simp [hv]
  · intro rows key row
    rw [extractNumericValues_eq_filterMap, extractNumericValues_eq_filterMap,
      List.filterMap_cons]
    rcases hv : jget row key with _ | v
    · simp [hv]
    · cases v with
      | num n =>
        by_cases hn : n = JSNum.nan
        · subst hn; simp [hv]
        · simp [hv, hn]
      | str s => simp [hv]
      | boolV b => simp [hv]
      | nullV => simp [hv]
      | arrV l => simp [hv]
      | objV l => simp [hv]

/-- Witness for `extractNumericValues_amended`: the all-finite column
`[{pressure: 5}]` evaluated through the theorem. -/
theorem extractNumericValues_amended_witness :
    extractNumericValues [[("pressure", JVal.num (JSNum.fin 5))]] "pressure"
      = (finiteNumericValues [[("pressure", JVal.num (JSNum.fin 5))]] "pressure").map
          JSNum.fin :=
  extractNumericValues_amended.1 _ "pressure" (by
    intro row hrow n hn
    simp only [List.mem_singleton] at hrow
    subst hrow
    have hv : jget [("pressure", JVal.num (JSNum.fin 5))] "pressure"
        = some (JVal.num (JSNum.fin 5)) := rfl
    rw [hv] at hn
    have : JSNum.fin 5 = n := by
      injection Option.some.inj hn with h
    subst this
    exact ⟨by simp, by simp⟩)

/-- Claim C6, counterexample: with a depth range whose lower bound is open
(`[null, 100]`), `filteredData` skips the range filter entirely — including
its upper bound — and keeps a row at pressure 200, while the claim's
"inclusive numeric range filter where either bound may be open" semantics
(`claimFilteredData`) drops it. -/
theorem filteredData_open_lower_bound_counterexample :
    filteredData PersonaMode.expert
        { focusMetric := "temperature", floatId := none,
          depthRange := some (none, some 100) }
        [[("pressure", JVal.num (JSNum.fin 200))]]
      = [[("pressure", JVal.num (JSNum.fin 200))]] ∧
    claimFilteredData PersonaMode.expert
        { focusMetric := "temperature", floatId := none,
          depthRange := some (none, some 100) }
        [[("pressure", JVal.num (JSNum.fin 200))]]
      = [] ∧
    filteredData PersonaMode.expert
        { focusMetric := "temperature", floatId := none,
          depthRange := some (none, some 100) }
        [[("pressure", JVal.num (JSNum.fin 200))]]
      ≠ claimFilteredData PersonaMode.expert
        { focusMetric := "temperature", floatId := none,
          depthRange := some (none, some 100) }
        [[("pressure", JVal.num (JSNum.fin 200))]] := by
  refine ⟨rfl, ?_, ?_⟩
  · show List.filter _ _ = _
    rfl
  · intro h
    have h1 : filteredData PersonaMode.expert
        { focusMetric := "temperature", floatId := none,
          depthRange := some (none, some 100) }
        [[("pressure", JVal.num (JSNum.fin 200))]]
      = [[("pressure", JVal.num (JSNum.fin 200))]] := rfl
    have h2 : claimFilteredData PersonaMode.expert
        { focusMetric := "temperature", floatId := none,
          depthRange := some (none, some 100) }
        [[("pressure", JVal.num (JSNum.fin 200))]] = [] := rfl
    rw [h1, h2] at h
    exact List.cons_ne_nil _ _ h

/-- Claim C6 as amended: in expert mode the two filters compose into one
conjunctive pass over a copy of the data (so the result is a sublist of the
untouched source and never an error); the range filter participates only when
its lower bound is non-null — with a null lower bound it is skipped entirely,
upper bound included; an active entity-id filter matching no row yields the
empty list; and swapped (lower > upper) bounds yield the empty list rather
than an error. -/
theorem filteredData_amended :
    (∀ (filters : ExpertFilters) (data : List Row),
        filteredData PersonaMode.expert filters data
          = data.filter (expertRowPass filters)) ∧
    (∀ (filters : ExpertFilters) (data : List Row),
        (filteredData PersonaMode.expert filters data).Sublist data) ∧
    (∀ (filters : ExpertFilters) (data : List Row) (fid : String),
        filters.floatId = some fid → fid ≠ "" →
        (∀ row ∈ data, floatIdRowPass row fid = false) →
        filteredData PersonaMode.expert filters data = []) ∧
    (∀ (filters : ExpertFilters) (data : List Row) (lo hi : ℚ),
        filters.depthRange = some (some lo, some hi) → hi < lo →
        filteredData PersonaMode.expert filters data = []) := by
  have hmain : ∀ (filters : ExpertFilters) (data : List Row),
      filteredData PersonaMode.expert filters data
        = data.filter (expertRowPass filters) := by
    intro filters data
    unfold filteredData expertRowPass
    simp only [ne_eq, not_true_eq_false, if_false]
    rcases hdr : filters.depthRange with _ | ⟨lo?, hi?⟩
    · by_cases hid : truthyStr filters.floatId
      · simp only [hid, if_true, Bool.and_true]
      · simp only [hid, Bool.false_eq_true, if_false, Bool.and_true,
          List.filter_true]
    · rcases lo? with _ | lo
      · by_cases hid : truthyStr filters.floatId
        · simp only [hid, if_true, Bool.and_true]
        · simp only [hid, Bool.false_eq_true, if_false, Bool.and_true,
            List.filter_true]
      · by_cases hid : truthyStr filters.floatId
        · simp only [hid, if_true]
          rw [List.filter_filter]
          exact List.filter_congr (fun row _ => Bool.and_comm _ _)
        · simp only [hid, Bool.false_eq_true, if_false, Bool.true_and]
  refine ⟨hmain, ?_, ?_, ?_⟩
  · intro filters data
    rw [hmain]
    exact List.filter_sublist data
  · intro filters data fid hfid hne hnone
    rw [hmain]
    refine List.filter_eq_nil_iff.mpr ?_
    intro row hrow
    have htr : truthyStr (some fid) = true := by
      simpa [truthyStr] using hne
    simp [expertRowPass, hfid, htr, hnone row hrow]
  · intro filters data lo hi hdr hlt
    rw [hmain]
    refine List.filter_eq_nil_iff.mpr ?_
    intro row hrow
    suffices hd : depthRowPass row lo (some hi) = false by
      simp [expertRowPass, hdr, hd]
    unfold depthRowPass
    rcases hv : jget row "pressure" with _ | v
    · rfl
    · cases v with
      | num d =>
        cases d with
        | fin x =>
          by_cases hxlo : x < lo
          · simp [jsNumLtQ, hxlo]
          · have : hi < x := lt_of_lt_of_le hlt (le_of_not_lt hxlo)
            simp [jsNumLtQ, jsNumGtQ, hxlo, this]
        | posInf => simp [jsNumLtQ, jsNumGtQ]
        | negInf => simp [jsNumLtQ]
        | nan => rfl
      | str s => rfl
      | boolV b => rfl
      | nullV => rfl
      | arrV l => rfl
      | objV l => rfl

/-- Witness for `filteredData_amended`: the no-match entity filter on a
concrete one-row result set yields the empty derived set. -/
theorem filteredData_amended_witness :
    filteredData PersonaMode.expert
        { focusMetric := "temperature", floatId := some "9999999",
          depthRange := none }
        [[("float_id", JVal.str "5905612")]]
      = [] :=
  filteredData_amended.2.2.1
    { focusMetric := "temperature", floatId := some "9999999", depthRange := none }
    [[("float_id", JVal.str "5905612")]] "9999999" rfl (by decide) (by
      intro row hrow
      simp only [List.mem_singleton] at hrow
      subst hrow
      decide)

theorem mem_dedupFirstSeen (l : List String) :
    ∀ (seen : List String) (a : String),
      a ∈ dedupFirstSeen seen l ↔ a ∈ l ∧ a ∉ seen := by
  induction l with
  | nil => intro seen a; simp [dedupFirstSeen]
  | cons s rest ih =>
    intro seen a
    by_cases hs : s ∈ seen
    · rw [dedupFirstSeen, if_pos hs, ih]
      constructor
      · rintro ⟨h1, h2⟩
        exact ⟨List.mem_cons_of_mem s h1, h2⟩
      · rintro ⟨h1, h2⟩
        rcases List.mem_cons.mp h1 with rfl | h1
        · exact absurd hs h2
        · exact ⟨h1, h2⟩
    · rw [dedupFirstSeen, if_neg hs]
      constructor
      · intro h
        rcases List.mem_cons.mp h with rfl | h1
        · exact ⟨List.mem_cons_self a rest, hs⟩
        · obtain ⟨h2, h3⟩ := (ih (s :: seen) a).mp h1
          exact ⟨List.mem_cons_of_mem s h2,
            fun hc => h3 (List.mem_cons_of_mem s hc)⟩
      · rintro ⟨h1, h2⟩
        rcases List.mem_cons.mp h1 with rfl | h1
        · exact List.mem_cons_self a _
        · by_cases ha : a = s
          · subst ha; exact List.mem_cons_self a _
          · refine List.mem_cons_of_mem s ((ih (s :: seen) a).mpr ⟨h1, ?_⟩)
            intro hc
            rcases List.mem_cons.mp hc with h | h
            · exact ha h
            · exact h2 h

theorem nodup_dedupFirstSeen (l : List String) :
    ∀ seen : List String, (dedupFirstSeen seen l).Nodup := by
  induction l with
  | nil => intro seen; simp [dedupFirstSeen]
  | cons s rest ih =>
    intro seen
    by_cases hs : s ∈ seen
    · rw [dedupFirstSeen, if_pos hs]; exact ih seen
    · rw [dedupFirstSeen, if_neg hs]
      refine List.nodup_cons.mpr ⟨?_, ih (s :: seen)⟩
      intro hc
      exact ((mem_dedupFirstSeen rest (s :: seen) s).mp hc).2
        (List.mem_cons_self s seen)

theorem mem_setDedup {l : List String} {a : String} :
    a ∈ setDedup l ↔ a ∈ l := by
  rw [setDedup, mem_dedupFirstSeen]
  simp

theorem nodup_setDedup (l : List String) : (setDedup l).Nodup :=
  nodup_dedupFirstSeen l []

theorem setDedup_length_eq_of_perm {l₁ l₂ : List String} (h : l₁.Perm l₂) :
    (setDedup l₁).length = (setDedup l₂).length := by
  have sub12 : setDedup l₁ ⊆ setDedup l₂ := fun a ha =>
    mem_setDedup.mpr (h.mem_iff.mp (mem_setDedup.mp ha))
  have sub21 : setDedup l₂ ⊆ setDedup l₁ := fun a ha =>
    mem_setDedup.mpr (h.mem_iff.mpr (mem_setDedup.mp ha))
  have h1 := ((nodup_setDedup l₁).subperm sub12).length_le
  have h2 := ((nodup_setDedup l₂).subperm sub21).length_le
  omega

/-- Claim C7, counterexample: two differently-ordered but equal-content result
sets (each a permutation of the other) with heterogeneous row schemas yield
different signatures, because the column list is read off the first row only. -/
theorem synopsisSignature_permutation_counterexample :
    ([[("a", JVal.num (JSNum.fin 1))], [("b", JVal.num (JSNum.fin 2))]] : List Row).Perm
      [[("b", JVal.num (JSNum.fin 2))], [("a", JVal.num (JSNum.fin 1))]] ∧
    synopsisSignature [[("a", JVal.num (JSNum.fin 1))], [("b", JVal.num (JSNum.fin 2))]]
      = some "2-a-0" ∧
    synopsisSignature [[("b", JVal.num (JSNum.fin 2))], [("a", JVal.num (JSNum.fin 1))]]
      = some "2-b-0" ∧
    synopsisSignature [[("a", JVal.num (JSNum.fin 1))], [("b", JVal.num (JSNum.fin 2))]]
      ≠ synopsisSignature [[("b", JVal.num (JSNum.fin 2))], [("a", JVal.num (JSNum.fin 1))]] := by
  refine ⟨List.Perm.swap _ _ _, rfl, rfl, ?_⟩
  intro h
  have h' : some "2-a-0" = some "2-b-0" := h
  simp at h'

/-- Claim C7 as amended: the signature is a function of exactly the row
count, the first row's column list, and the distinct-entity count (equal
triples give equal signatures); and permuting the row order preserves the
signature provided all rows share one column list, the uniform-schema
assumption `createDataSynopsis` itself makes. -/
theorem synopsisSignature_amended :
    (∀ d1 d2 : List Row, d1.length = d2.length →
      (d1.headD []).map Prod.fst = (d2.headD []).map Prod.fst →
      (synopsisFloatIds d1).length = (synopsisFloatIds d2).length →
      synopsisSignature d1 = synopsisSignature d2) ∧
    (∀ d1 d2 : List Row, d1.Perm d2 →
      (∀ r1 ∈ d1, ∀ r2 ∈ d1, r1.map Prod.fst = r2.map Prod.fst) →
      synopsisSignature d1 = synopsisSignature d2) := by
  have hsig : ∀ d1 d2 : List Row, d1.length = d2.length →
      (d1.headD []).map Prod.fst = (d2.headD []).map Prod.fst →
      (synopsisFloatIds d1).length = (synopsisFloatIds d2).length →
      synopsisSignature d1 = synopsisSignature d2 := by
    intro d1 d2 hlen hcols hids
    have hemp : d1.isEmpty = d2.isEmpty := by
      cases d1 <;> cases d2 <;> simp_all
    simp only [synopsisSignature, hemp, hlen, hcols, hids]
  refine ⟨hsig, ?_⟩
  intro d1 d2 hperm huniform
  have hlen : d1.length = d2.length := hperm.length_eq
  have hids : (synopsisFloatIds d1).length = (synopsisFloatIds d2).length := by
    unfold synopsisFloatIds
    exact setDedup_length_eq_of_perm
      (((hperm.map synopsisFloatId).filterMap id).filter _)
  have hcols : (d1.headD []).map Prod.fst = (d2.headD []).map Prod.fst := by
    rcases h1 : d1 with _ | ⟨r1, t1⟩
    · subst h1
      have : d2 = [] := List.Perm.nil_eq hperm |>.symm
      rw [this]
    · rcases h2 : d2 with _ | ⟨r2, t2⟩
      · rw [h1, h2] at hperm
        exact absurd hperm.symm.nil_eq.symm (List.cons_ne_nil r1 t1)
      · have hr1 : r1 ∈ d1 := h1 ▸ List.mem_cons_self r1 t1
        have hr2 : r2 ∈ d1 := hperm.mem_iff.mpr (h2 ▸ List.mem_cons_self r2 t2)
        have := huniform r1 hr1 r2 hr2
        simpa using this
  exact hsig d1 d2 hlen hcols hids

/-- Witness for `synopsisSignature_amended`: a two-row uniform-schema result
set and its reversal evaluated through the theorem. -/
theorem synopsisSignature_amended_witness :
    synopsisSignature
        [[("float_id", JVal.str "5905612")], [("float_id", JVal.str "2902273")]]
      = synopsisSignature
        [[("float_id", JVal.str "2902273")], [("float_id", JVal.str "5905612")]] :=
  synopsisSignature_amended.2
    [[("float_id", JVal.str "5905612")], [("float_id", JVal.str "2902273")]]
    [[("float_id", JVal.str "2902273")], [("float_id", JVal.str "5905612")]]
    (List.Perm.swap _ _ _)
    (by
      intro r1 h1 r2 h2
      rcases List.mem_cons.mp h1 with rfl | h1 <;>
        rcases List.mem_cons.mp h2 with rfl | h2 <;>
        simp_all)

/-- Claim C2: the welcome load makes at most 3 attempts; the delays slept
between consecutive attempts follow `400ms * attempt²` with the attempt
1-indexed (so at most the two gaps 400ms and 1600ms actually occur, the
formula's value 3600ms for a third gap never being slept since no delay
follows the final attempt); a structurally valid response stops the loop
immediately — in particular two failures followed by a success give exactly 3
attempts with delays [400, 1600], and a first-attempt success gives exactly
one attempt with no delay; and, for responses whose optional string fields
are absent or non-empty, the code's acceptance test is exactly the claim's
"no error field, array result_data, non-null sql_query". -/
theorem welcomeRetry_spec :
    (∀ oracle : ℕ → Except Unit AIResponse,
      (welcomeAttempts oracle 0 3).attempts ≤ 3) ∧
    (∀ oracle : ℕ → Except Unit AIResponse,
      (welcomeAttempts oracle 0 3).delays =
        (List.range ((welcomeAttempts oracle 0 3).attempts - 1)).map
          (fun k => 400 * (k + 1) * (k + 1))) ∧
    (∀ (oracle : ℕ → Except Unit AIResponse) (p : AppData),
      welcomePayload (oracle 0) = none → welcomePayload (oracle 1) = none →
      welcomePayload (oracle 2) = some p →
      welcomeAttempts oracle 0 3 = ⟨3, [400, 1600], some p⟩) ∧
    (∀ (oracle : ℕ → Except Unit AIResponse) (p : AppData),
      welcomePayload (oracle 0) = some p →
      welcomeAttempts oracle 0 3 = ⟨1, [], some p⟩) ∧
    (∀ (oracle : ℕ → Except Unit AIResponse) (p : AppData),
      welcomePayload (oracle 0) = none → welcomePayload (oracle 1) = some p →
      welcomeAttempts oracle 0 3 = ⟨2, [400], some p⟩) ∧
    (∀ r : AIResponse,
      (r.error = none ∨ ∃ s, r.error = some s ∧ s ≠ "") →
      (r.sql_query = none ∨ ∃ s, r.sql_query = some s ∧ s ≠ "") →
      (isValidWelcomeResponse r = true ↔
        (r.error = none ∧ (∃ l, r.result_data = ResultData.rows l) ∧
          r.sql_query ≠ none))) := by
  have hstep : ∀ (oracle : ℕ → Except Unit AIResponse) (a r : ℕ),
      welcomeAttempts oracle a (r + 1) =
        match welcomePayload (oracle a) with
        | some payload => ⟨1, [], some payload⟩
        | none =>
          if r = 0 then ⟨1, [], none⟩
          else
            ⟨(welcomeAttempts oracle (a + 1) r).attempts + 1,
             400 * (a + 1) * (a + 1) :: (welcomeAttempts oracle (a + 1) r).delays,
             (welcomeAttempts oracle (a + 1) r).payload⟩ := by
    intro oracle a r
    rfl
  have hcases : ∀ oracle : ℕ → Except Unit AIResponse,
      ((∃ p, welcomePayload (oracle 0) = some p) ∧
        welcomeAttempts oracle 0 3 = ⟨1, [], welcomePayload (oracle 0)⟩) ∨
      (welcomePayload (oracle 0) = none ∧ (∃ p, welcomePayload (oracle 1) = some p) ∧
        welcomeAttempts oracle 0 3 = ⟨2, [400], welcomePayload (oracle 1)⟩) ∨
      (welcomePayload (oracle 0) = none ∧ welcomePayload (oracle 1) = none ∧
        welcomeAttempts oracle 0 3 = ⟨3, [400, 1600], welcomePayload (oracle 2)⟩) := by
    intro oracle
    rcases h0 : welcomePayload (oracle 0) with _ | p0
    · rcases h1 : welcomePayload (oracle 1) with _ | p1
      · refine Or.inr (Or.inr ⟨rfl, rfl, ?_⟩)
        rw [hstep, h0, hstep, h1, hstep]
        rcases welcomePayload (oracle 2) with _ | p2 <;> simp
      · refine Or.inr (Or.inl ⟨rfl, ⟨p1, rfl⟩, ?_⟩)
        rw [hstep, h0, hstep, h1]
        simp
    · refine Or.inl ⟨⟨p0, rfl⟩, ?_⟩
      rw [hstep, h0]
  refine ⟨?_, ?_, ?_, ?_, ?_, ?_⟩
  · intro oracle
    rcases hcases oracle with ⟨_, h⟩ | ⟨_, _, h⟩ | ⟨_, _, h⟩ <;> rw [h] <;> simp
  · intro oracle
    rcases hcases oracle with ⟨_, h⟩ | ⟨_, _, h⟩ | ⟨_, _, h⟩ <;> rw [h] <;>
      simp [List.range_succ]
  · intro oracle p h0 h1 h2
    rcases hcases oracle with ⟨⟨q, hq⟩, _⟩ | ⟨_, ⟨q, hq⟩, _⟩ | ⟨_, _, h⟩
    · rw [h0] at hq
      cases hq
    · rw [h1] at hq
      cases hq
    · rw [h2] at h
      exact h
  · intro oracle p h0
    rcases hcases oracle with ⟨_, h⟩ | ⟨hn, _, _⟩ | ⟨hn, _, _⟩
    · rw [h0] at h
      exact h
    · rw [h0] at hn
      cases hn
    · rw [h0] at hn
      cases hn
  · intro oracle p h0 h1
    rcases hcases oracle with ⟨⟨q, hq⟩, _⟩ | ⟨_, _, h⟩ | ⟨_, hn, _⟩
    · rw [h0] at hq
      cases hq
    · rw [h1] at h
      exact h
    · rw [h1] at hn
      cases hn
  · intro r herr hsql
    unfold isValidWelcomeResponse
    rcases herr with herr | ⟨es, herr, hes⟩ <;>
      rcases hsql with hsql | ⟨ss, hsql, hss⟩ <;>
      rcases hrd : r.result_data with l | sd | _ <;>
      simp [herr, hsql, truthyStr, hrd] <;> simp_all

/-- Witness for `welcomeRetry_spec`: an oracle that fails twice and then
produces a structurally valid response runs exactly 3 attempts with delays
400ms and 1600ms and commits the third response's payload. -/
theorem welcomeRetry_spec_witness :
    welcomeAttempts
        (fun k => if k < 2 then Except.error () else
          Except.ok { sql_query := some "SELECT 1", result_data := ResultData.rows [] })
        0 3
      = ⟨3, [400, 1600], some ⟨[], "SELECT 1"⟩⟩ :=
  welcomeRetry_spec.2.2.1
    (fun k => if k < 2 then Except.error () else
      Except.ok { sql_query := some "SELECT 1", result_data := ResultData.rows [] })
    ⟨[], "SELECT 1"⟩ rfl rfl rfl

/-- Claim C3: when every welcome attempt fails, the loop commits no payload;
the App then serves the persisted last-known-good snapshot from the
browser-scoped store with status degraded, and only when that cached snapshot
is also absent does it present the explicit empty state with status
offline. -/
theorem welcomeCacheFallback_spec :
    ∀ (oracle : ℕ → Except Unit AIResponse) (cache : Option CacheBlob),
      (∀ k, k < 3 → welcomePayload (oracle k) = none) →
      (welcomeAttempts oracle 0 3).payload = none ∧
      (∀ d s, loadCachedWelcomeData cache = some ⟨d, s⟩ →
        fetchInitialData oracle cache =
          { appData := ⟨d, s⟩, synopsisSig := synopsisSignature d,
            status := BackendStatus.degraded,
            statusDetail := "Loaded cached telemetry while the backend recovers.",
            persisted := none }) ∧
      (loadCachedWelcomeData cache = none →
        fetchInitialData oracle cache =
          { appData := ⟨[], ""⟩, synopsisSig := none,
            status := BackendStatus.offline,
            statusDetail := "Initial telemetry failed. Backend unreachable.",
            persisted := none }) := by
  intro oracle cache hfail
  have h0 := hfail 0 (by omega)
  have h1 := hfail 1 (by omega)
  have h2 := hfail 2 (by omega)
  have htrace : welcomeAttempts oracle 0 3 = ⟨3, [400, 1600], none⟩ := by
    show welcomeAttempts oracle 0 (2 + 1) = _
    rw [show welcomeAttempts oracle 0 (2 + 1) =
        match welcomePayload (oracle 0) with
        | some payload => ⟨1, [], some payload⟩
        | none =>
          ⟨(welcomeAttempts oracle 1 2).attempts + 1,
           400 :: (welcomeAttempts oracle 1 2).delays,
           (welcomeAttempts oracle 1 2).payload⟩ from rfl, h0]
    rw [show welcomeAttempts oracle 1 (1 + 1) =
        match welcomePayload (oracle 1) with
        | some payload => ⟨1, [], some payload⟩
        | none =>
          ⟨(welcomeAttempts oracle 2 1).attempts + 1,
           1600 :: (welcomeAttempts oracle 2 1).delays,
           (welcomeAttempts oracle 2 1).payload⟩ from rfl, h1]
    rw [show welcomeAttempts oracle 2 (0 + 1) =
        match welcomePayload (oracle 2) with
        | some payload => ⟨1, [], some payload⟩
        | none => ⟨1, [], none⟩ from rfl, h2]
  refine ⟨by rw [htrace], ?_, ?_⟩
  · intro d s hcache
    unfold fetchInitialData
    rw [htrace, hcache]
  · intro hcache
    unfold fetchInitialData
    rw [htrace, hcache]

/-- Witness for `welcomeCacheFallback_spec`: an always-failing oracle with a
well-formed cached snapshot lands in the degraded cached state. -/
theorem welcomeCacheFallback_spec_witness :
    fetchInitialData (fun _ => Except.error ())
        (some (CacheBlob.wellFormed [] "SELECT 1"))
      = { appData := ⟨[], "SELECT 1"⟩, synopsisSig := none,
          status := BackendStatus.degraded,
          statusDetail := "Loaded cached telemetry while the backend recovers.",
          persisted := none } :=
  ((welcomeCacheFallback_spec (fun _ => Except.error ())
      (some (CacheBlob.wellFormed [] "SELECT 1"))
      (fun _ _ => rfl)).2.1) [] "SELECT 1" rfl

/-- Claim C9: a failed catalog fetch resolves to the fixed six-entry sample
fleet, whose first entry is float "5905612" at latitude -33.5, longitude
151.3, status active; and a failed profile fetch resolves to the fixed sample
profile with depths [0, 200, 500, 1000] and values [20.2, 15.1, 8.3, 4.2],
each independently of which float or variable was requested. -/
theorem sampleFallback_spec :
    (∀ (e : Unit) (filters : Option DataFilters),
      getArgoFloats filters (Except.error e)
        = { data := SAMPLE_FLOATS, source := DataSource.sample }) ∧
    SAMPLE_FLOATS.length = 6 ∧
    SAMPLE_FLOATS.head?.map (fun f => (f.id, f.lat, f.lon, f.status))
      = some ("5905612", -33.5, 151.3, "active") ∧
    (∀ (e : Unit) (floatId variable₀ : String),
      getFloatProfile floatId variable₀ (Except.error e) = SAMPLE_PROFILE) ∧
    SAMPLE_PROFILE.depth = [0, 200, 500, 1000] ∧
    SAMPLE_PROFILE.values = [20.2, 15.1, 8.3, 4.2] := by
  refine ⟨fun _ _ => rfl, rfl, ?_, fun _ _ _ => rfl, by norm_num [SAMPLE_PROFILE],
    by norm_num [SAMPLE_PROFILE]⟩
  norm_num [SAMPLE_FLOATS]

/-- Claim C1, counterexample: the trajectory fallback is not a deterministic
hardcoded value — resolved at two different wall-clock instants one day
apart, the same failing call yields different fallback values (their first
points' timestamps differ by a day). -/
theorem trajectoryFallback_not_hardcoded :
    (getFloatTrajectory "5905612" 50 0 (Except.error ())).head?.map
        TrajectoryPoint.timestampMs = some (-4320000000) ∧
    (getFloatTrajectory "5905612" 50 86400000 (Except.error ())).head?.map
        TrajectoryPoint.timestampMs = some (-4233600000) ∧
    getFloatTrajectory "5905612" 50 0 (Except.error ())
      ≠ getFloatTrajectory "5905612" 50 86400000 (Except.error ()) := by
  refine ⟨rfl, rfl, ?_⟩
  intro h
  have h1 : (getFloatTrajectory "5905612" 50 0 (Except.error ())).head?.map
      TrajectoryPoint.timestampMs = some (-4320000000) := rfl
  have h2 : (getFloatTrajectory "5905612" 50 86400000 (Except.error ())).head?.map
      TrajectoryPoint.timestampMs = some (-4233600000) := rfl
  rw [h] at h1
  rw [h1] at h2
  exact absurd (Option.some.inj h2) (by decide)

/-- Claim C1 as amended: every resource method is a total function of its
fetch outcome — a success passes through, and every failure maps to a
fallback of the success type, so no exception ever reaches the caller; the
catalog, stats, profile, time-series and quality fallbacks are fixed
hardcoded values independent of the requested float, variable, and filters;
the trajectory fallback is synthetic — independent of the requested float id
but determined by the requested limit and the current wall-clock time (its
length is `min limit 10`), hence deterministic per instant but not a
hardcoded constant. -/
theorem floatAIAPI_fallbacks_amended :
    (∀ v, getDatabaseStats (Except.ok v) = v) ∧
    (∀ e, getDatabaseStats (Except.error e)
      = { total_floats := 6, last_updated := none, dataset := some "Sample dataset" }) ∧
    (∀ filters v, getArgoFloats filters (Except.ok v)
      = { data := v, source := DataSource.live }) ∧
    (∀ e filters filters',
      getArgoFloats filters (Except.error e)
        = getArgoFloats filters' (Except.error e) ∧
      getArgoFloats filters (Except.error e)
        = { data := SAMPLE_FLOATS, source := DataSource.sample }) ∧
    (∀ id v outcome, getFloatProfile id v outcome
      = match outcome with | .ok p => p | .error _ => SAMPLE_PROFILE) ∧
    (∀ sinFn id v outcome, getTimeSeriesData sinFn id v outcome
      = match outcome with | .ok t => t | .error _ => SAMPLE_TIME_SERIES sinFn) ∧
    (∀ id outcome, getDataQuality id outcome
      = match outcome with | .ok q => q | .error _ => SAMPLE_QUALITY) ∧
    (∀ id v, getFloatTrajectory id 50 0 (Except.ok v) = v) ∧
    (∀ e id id' limit nowMs,
      getFloatTrajectory id limit nowMs (Except.error e)
        = getFloatTrajectory id' limit nowMs (Except.error e)) ∧
    (∀ e id limit nowMs,
      (getFloatTrajectory id limit nowMs (Except.error e)).length
        = Nat.min limit 10) := by
  refine ⟨fun _ => rfl, fun _ => rfl, fun _ _ => rfl, fun _ _ _ => ⟨rfl, rfl⟩,
    ?_, ?_, ?_, fun _ _ => rfl, fun _ _ _ _ _ => rfl, ?_⟩
  · intro id v outcome
    cases outcome <;> rfl
  · intro sinFn id v outcome
    cases outcome <;> rfl
  · intro id outcome
    cases outcome <;> rfl
  · intro e id limit nowMs
    show (List.map _ (List.range (Nat.min limit 10))).length = Nat.min limit 10
    rw [List.length_map, List.length_range]

/-- Claim C4: a response resolving with a captured session counter different
from the current one mutates nothing — no message is appended, no data update
or status change is emitted, and the loading flag is untouched; in
particular, after `handleResetConversation` increments the counter, any
request issued under the pre-reset counter resolves as a no-op on the
post-reset state. -/
theorem staleResponse_noop :
    (∀ (captured : ℕ) (outcome : Except Unit AIResponse) (nowMs : ℕ)
        (st : ChatState), st.sessionId ≠ captured →
      resolveAskAI captured outcome nowMs st = (st, [])) ∧
    (∀ (outcome : Except Unit AIResponse) (nowMs nowMs' : ℕ) (st : ChatState),
      resolveAskAI st.sessionId outcome nowMs
          (handleResetConversation st nowMs').fst
        = ((handleResetConversation st nowMs').fst, [])) := by
  have hstale : ∀ (captured : ℕ) (outcome : Except Unit AIResponse)
      (nowMs : ℕ) (st : ChatState), st.sessionId ≠ captured →
      resolveAskAI captured outcome nowMs st = (st, []) := by
    intro captured outcome nowMs st h
    cases outcome with
    | ok response => simp [resolveAskAI, h]
    | error e => simp [resolveAskAI, h]
  refine ⟨hstale, ?_⟩
  intro outcome nowMs nowMs' st
  refine hstale st.sessionId outcome nowMs _ ?_
  show st.sessionId + 1 ≠ st.sessionId
  omega

/-- Witness for `staleResponse_noop`: a concrete stale resolution (current
session 1, captured counter 0) leaves the concrete state untouched and emits
nothing. -/
theorem staleResponse_noop_witness :
    resolveAskAI 0
        (Except.ok ⟨some "SELECT 1", ResultData.rows [], none, none, none⟩) 99
        ⟨1, [], true, "q"⟩
      = (⟨1, [], true, "q"⟩, []) :=
  staleResponse_noop.1 0
    (Except.ok ⟨some "SELECT 1", ResultData.rows [], none, none, none⟩)
    99 ⟨1, [], true, "q"⟩
    (by decide)

/-- Claim C10: when the payload's `messages` field is a non-empty array with
no `role === 'assistant'` entry, `normalizeAssistantMessages` returns the
empty list — the single-message fallback branch is not taken — and a
non-stale resolution of such a response appends nothing to the transcript. -/
theorem normalize_no_assistant_entries :
    ∀ (payload : AIResponse) (fallbackText : String) (timestampSeed : ℕ)
      (msgs : List BackendAssistantMessage),
      payload.messages = some msgs → msgs ≠ [] →
      (∀ m ∈ msgs, m.role ≠ "assistant") →
      normalizeAssistantMessages payload fallbackText timestampSeed = [] ∧
      (∀ (nowMs : ℕ) (st : ChatState),
        ((resolveAskAI st.sessionId (Except.ok payload) nowMs st).fst).messages
          = st.messages) := by
  intro payload fallbackText timestampSeed msgs hmsgs hne hroles
  have hnorm : ∀ fb seed, normalizeAssistantMessages payload fb seed = [] := by
    intro fb seed
    unfold normalizeAssistantMessages
    rw [hmsgs]
    have hfilter : msgs.filter (fun entry => entry.role == "assistant") = [] := by
      refine List.filter_eq_nil_iff.mpr ?_
      intro m hm
      simpa using hroles m hm
    simp [List.length_pos.mpr hne, hfilter]
  refine ⟨hnorm fallbackText timestampSeed, ?_⟩
  intro nowMs st
  show ((resolveAskAI st.sessionId (Except.ok payload) nowMs st).fst).messages
    = st.messages
  unfold resolveAskAI
  simp [hnorm]

/-- Witness for `normalize_no_assistant_entries`: a payload whose messages
array holds a single user-role entry normalizes to no display messages. -/
theorem normalize_no_assistant_entries_witness :
    normalizeAssistantMessages
        { messages := some [{ role := "user", content := JVal.str "hi" }] }
        "fallback" 0
      = [] :=
  (normalize_no_assistant_entries
    { messages := some [{ role := "user", content := JVal.str "hi" }] }
    "fallback" 0 [{ role := "user", content := JVal.str "hi" }] rfl
    (by simp)
    (by
      intro m hm
      simp only [List.mem_singleton] at hm
      subst hm
      decide)).1

end FloatDeck
